import Mathlib

/-!
# Verification of the jsonpath-ng path-expression compiler (`jsonpath_ng/parser.py`)

This file embeds the grammar and AST-construction logic of the jsonpath-ng
parser.  The source (`src/jsonpath_ng/parser.py`) is a PLY LALR grammar with
an explicit precedence table; the embedding realises that grammar as an
equivalent precedence-climbing parser over the same token stream, with each
grammar production (`p_jsonpath_binop`, `p_jsonpath_fields`, `p_slice`,
`p_maybe_int`, ...) translated directly.  PLY resolves shift/reduce conflicts
with the `precedence` list ordered from LOWEST to HIGHEST binding strength,
all entries `left`-associative; terminals without a precedence entry (such as
`[`) are resolved in favour of shifting, which makes bracketed child access
bind to the immediately preceding primary expression.  Both behaviours are
reproduced here.
-/

/-- The AST of path expressions.  Modelled from the spec: the node classes
live in `jsonpath_ng/jsonpath.py`, which is not under `src/`; the spec's §3
data-model table fixes the closed set of variants and their fields, and the
constructor calls in `src/jsonpath_ng/parser.py` fix their arities
(`Fields(*names)`, `Index(n)`, `Slice(start, end, step)` with absent
components `None`, and the five binary variants each holding two subtrees). -/
inductive JsonPath where
  | Root : JsonPath
  | This : JsonPath
  | Parent : JsonPath
  | Fields (names : List String) : JsonPath
  | Index (i : Int) : JsonPath
  | Slice (start stop step : Option Int) : JsonPath
  | Child (left right : JsonPath) : JsonPath
  | Descendants (left right : JsonPath) : JsonPath
  | Where (left right : JsonPath) : JsonPath
  | Union (left right : JsonPath) : JsonPath
  | Intersect (left right : JsonPath) : JsonPath
deriving DecidableEq, Repr

/-- The value carried by a lexical token: PLY tokens carry either the lexeme
string or, for `NUMBER`, the converted integer. -/
inductive TokVal where
  | s (v : String) : TokVal
  | n (v : Int) : TokVal
deriving DecidableEq, Repr

/-- A lexical token as the parser sees it (a PLY `LexToken`): a token type
(`ID`, `NUMBER`, `NAMED_OPERATOR`, `DOUBLEDOT`, `WHERE`, or a literal
character such as `.` or `[` whose type is the character itself), a value,
and position metadata `lineno`/`lexpos`. -/
structure LexToken where
  ttype : String
  value : TokVal
  lineno : Nat
  lexpos : Nat
deriving DecidableEq, Repr

/-- Build a token on line 1 at character offset `pos`. -/
def mkTok (ttype : String) (value : TokVal) (pos : Nat) : LexToken :=
  { ttype := ttype, value := value, lineno := 1, lexpos := pos }

/-- The token's value rendered as Python's `%s` renders it (the string
itself, or the decimal form of the integer). -/
def LexToken.svalue (t : LexToken) : String :=
  match t.value with
  | TokVal.s v => v
  | TokVal.n v => toString v

/-- The token's integer value; `NUMBER` tokens always carry `TokVal.n`. -/
def LexToken.num (t : LexToken) : Int :=
  match t.value with
  | TokVal.n v => v
  | TokVal.s _ => 0

/-- The error raised by the parser, `JsonPathParserError`.  Every raise site
in `src/jsonpath_ng/parser.py` constructs it with a single formatted message
string, so the value's entire content is that message. -/
structure JsonPathParserError where
  msg : String
deriving DecidableEq, Repr

/-- `p_error` from the source: a missing token (end of input) yields the
fixed message; an unexpected token yields a message interpolating
`t.lineno`, `t.lexpos`, `t.value` and `t.type`. -/
def p_error (t : Option LexToken) : JsonPathParserError :=
  match t with
  | none => { msg := "Parse error near the end of string!" }
  | some t =>
      { msg := "Parse error at " ++ toString t.lineno ++ ":" ++ toString t.lexpos
          ++ " near token " ++ t.svalue ++ " (" ++ t.ttype ++ ")" }

/-- The unknown-named-operator error raised in `p_jsonpath_named_operator`,
interpolating the name and the token's `lineno`/`lexpos`. -/
def unknownNamedOperatorError (name : String) (lineno lexpos : Nat) : JsonPathParserError :=
  { msg := "Unknown named operator `" ++ name ++ "` at "
      ++ toString lineno ++ ":" ++ toString lexpos }

/-- The `precedence` table of `JsonPathParser`, verbatim: PLY reads it from
lowest to highest binding strength, each entry tagged with its
associativity. -/
def precedence : List (String × String) :=
  [ ("left", ","),
    ("left", "DOUBLEDOT"),
    ("left", "."),
    ("left", "|"),
    ("left", "&"),
    ("left", "WHERE") ]

/-- The binding strength PLY assigns to a terminal: its 1-based position in
the `precedence` table (earlier entries bind less tightly). -/
def precLevel (ttype : String) : Option Nat :=
  (List.findIdx? (fun e => e.2 = ttype) precedence).map (fun i => i + 1)

/-- The associativity the `precedence` table declares for a terminal. -/
def assocOf (ttype : String) : Option String :=
  (List.find? (fun e => e.2 = ttype) precedence).map (fun e => e.1)

/-- The five binary-operator terminals of the `p_jsonpath_binop`
production's grammar docstring. -/
def isBinopToken (ttype : String) : Bool :=
  ttype = "." || ttype = "DOUBLEDOT" || ttype = "WHERE" || ttype = "|" || ttype = "&"

/-- The action of `p_jsonpath_binop`: dispatch on the operator token's value
`p[2]` and build the corresponding binary node. -/
def p_jsonpath_binop (op : String) (left right : JsonPath) : Option JsonPath :=
  if op = "." then some (JsonPath.Child left right)
  else if op = ".." then some (JsonPath.Descendants left right)
  else if op = "where" then some (JsonPath.Where left right)
  else if op = "|" then some (JsonPath.Union left right)
  else if op = "&" then some (JsonPath.Intersect left right)
  else none

/-- `p_fields_id` / `p_fields_comma`: a `fields` list is one `ID` followed by
any number of `',' ID` continuations, flattened left to right; after a comma
anything other than an `ID` is a parse error at that token (as in the LALR
machine, where only `ID` can extend `fields ','`). -/
def parseFieldsTail : Nat → List String → List LexToken →
    Except JsonPathParserError (List String × List LexToken)
  | 0, _, _ => Except.error (p_error none)
  | fuel + 1, acc, toks =>
      match toks with
      | t :: rest =>
          if t.ttype = "," then
            match rest with
            | t2 :: rest2 =>
                if t2.ttype = "ID" then parseFieldsTail fuel (acc ++ [t2.svalue]) rest2
                else Except.error (p_error (some t2))
            | [] => Except.error (p_error none)
          else Except.ok (acc, toks)
      | [] => Except.ok (acc, toks)

/-- `p_maybe_int` / `p_empty`: a slice component is the `NUMBER` written in
that position, or absent (`None`) when the position is empty. -/
def parseMaybeInt : List LexToken → Option Int × List LexToken
  | t :: rest => if t.ttype = "NUMBER" then (some t.num, rest) else (none, t :: rest)
  | [] => (none, [])

/-- `p_slice`: after the first `':'` of `maybe_int ':' maybe_int
(':' maybe_int)?`, read the remaining components and the closing `']'`;
`Slice(*p[1::2])` fills the missing `step` of the two-component form with
`None`. -/
def parseSliceRest (start : Option Int) (toks : List LexToken) :
    Except JsonPathParserError (JsonPath × List LexToken) :=
  match parseMaybeInt toks with
  | (stop, toks1) =>
      match toks1 with
      | t :: rest =>
          if t.ttype = ":" then
            match parseMaybeInt rest with
            | (step, toks2) =>
                match toks2 with
                | t2 :: rest2 =>
                    if t2.ttype = "]" then
                      Except.ok (JsonPath.Slice start stop step, rest2)
                    else Except.error (p_error (some t2))
                | [] => Except.error (p_error none)
          else if t.ttype = "]" then Except.ok (JsonPath.Slice start stop none, rest)
          else Except.error (p_error (some t))
      | [] => Except.error (p_error none)

/-- The contents of a bracket pair, entered just after `'['`: `p_slice_any`
(`'*'` means the full-range slice `Slice()`), `p_idx` (`NUMBER ']'` means
`Index`), `p_slice` (a `':'`-separated slice), or a `fields` list; consumes
through the closing `']'` and returns the inner node, which the callers wrap
(or not) exactly as `p_jsonpath_idx` / `p_jsonpath_slice` /
`p_jsonpath_fieldbrackets` and their `child` variants do. -/
def parseBracket (fuel : Nat) (toks : List LexToken) :
    Except JsonPathParserError (JsonPath × List LexToken) :=
  match toks with
  | [] => Except.error (p_error none)
  | t :: rest =>
      if t.ttype = "*" then
        match rest with
        | t2 :: rest2 =>
            if t2.ttype = "]" then Except.ok (JsonPath.Slice none none none, rest2)
            else Except.error (p_error (some t2))
        | [] => Except.error (p_error none)
      else if t.ttype = "ID" then
        match parseFieldsTail fuel [t.svalue] rest with
        | Except.error e => Except.error e
        | Except.ok (names, toks1) =>
            match toks1 with
            | t2 :: rest2 =>
                if t2.ttype = "]" then Except.ok (JsonPath.Fields names, rest2)
                else Except.error (p_error (some t2))
            | [] => Except.error (p_error none)
      else if t.ttype = "NUMBER" then
        match rest with
        | t2 :: rest2 =>
            if t2.ttype = "]" then Except.ok (JsonPath.Index t.num, rest2)
            else if t2.ttype = ":" then parseSliceRest (some t.num) rest2
            else Except.error (p_error (some t2))
        | [] => Except.error (p_error none)
      else if t.ttype = ":" then parseSliceRest none rest
      else Except.error (p_error (some t))

/-- Postfix bracketed child access: `jsonpath '[' idx ']'`, `jsonpath '['
slice ']'`, `jsonpath '[' fields ']'`.  `'['` has no precedence entry, so
PLY shifts it unconditionally: the bracket attaches to the immediately
preceding primary expression and produces a `Child` node
(`p_jsonpath_child_idxbrackets` and friends). -/
def parsePostfix : Nat → JsonPath → List LexToken →
    Except JsonPathParserError (JsonPath × List LexToken)
  | 0, _, _ => Except.error (p_error none)
  | fuel + 1, left, toks =>
      match toks with
      | t :: rest =>
          if t.ttype = "[" then
            match parseBracket fuel rest with
            | Except.error e => Except.error e
            | Except.ok (node, toks1) => parsePostfix fuel (JsonPath.Child left node) toks1
          else Except.ok (left, toks)
      | [] => Except.ok (left, toks)

mutual

/-- The expression nonterminal `jsonpath`, parsed by precedence climbing
with minimum binding strength `minLev`: a primary expression
(`parseAtom`), its postfix brackets, then the binary-operator loop.  This
realises the LALR machine's conflict resolution: an operator is consumed
while its `precLevel` is at least the current minimum, and `left`
associativity restarts the right-hand side one level higher. -/
def parseExpr : Nat → Nat → List LexToken →
    Except JsonPathParserError (JsonPath × List LexToken)
  | 0, _, _ => Except.error (p_error none)
  | fuel + 1, minLev, toks =>
      match parseAtom fuel toks with
      | Except.error e => Except.error e
      | Except.ok (a, toks1) =>
          match parsePostfix fuel a toks1 with
          | Except.error e => Except.error e
          | Except.ok (a2, toks2) => parseBinopLoop fuel minLev a2 toks2

/-- The primary (non-binop) `jsonpath` productions: `p_jsonpath_root`,
`p_jsonpath_named_operator`, `p_jsonpath_fields` (via `fields_or_any`,
where a bare `'*'` is the wildcard field list `['*']`), `p_jsonpath_parens`,
and the bracketed forms `p_jsonpath_idx` / `p_jsonpath_slice` /
`p_jsonpath_fieldbrackets`.  Any other token is a parse error at that
token; an empty stream is a parse error near the end of string. -/
def parseAtom : Nat → List LexToken →
    Except JsonPathParserError (JsonPath × List LexToken)
  | 0, _ => Except.error (p_error none)
  | _ + 1, [] => Except.error (p_error none)
  | fuel + 1, t :: rest =>
      if t.ttype = "$" then Except.ok (JsonPath.Root, rest)
      else if t.ttype = "NAMED_OPERATOR" then
        if t.svalue = "this" then Except.ok (JsonPath.This, rest)
        else if t.svalue = "parent" then Except.ok (JsonPath.Parent, rest)
        else Except.error (unknownNamedOperatorError t.svalue t.lineno t.lexpos)
      else if t.ttype = "ID" then
        match parseFieldsTail fuel [t.svalue] rest with
        | Except.error e => Except.error e
        | Except.ok (names, toks1) => Except.ok (JsonPath.Fields names, toks1)
      else if t.ttype = "*" then Except.ok (JsonPath.Fields ["*"], rest)
      else if t.ttype = "(" then
        match parseExpr fuel 0 rest with
        | Except.error e => Except.error e
        | Except.ok (e, toks1) =>
            match toks1 with
            | t2 :: rest2 =>
                if t2.ttype = ")" then Except.ok (e, rest2)
                else Except.error (p_error (some t2))
            | [] => Except.error (p_error none)
      else if t.ttype = "[" then parseBracket fuel rest
      else Except.error (p_error (some t))

/-- The binary-operator loop of the climb: while the next token is one of
the five `p_jsonpath_binop` terminals whose table level is at least
`minLev`, consume it, parse the right operand one level higher (the table
declares every operator `left`-associative), and combine with
`p_jsonpath_binop`. -/
def parseBinopLoop : Nat → Nat → JsonPath → List LexToken →
    Except JsonPathParserError (JsonPath × List LexToken)
  | 0, _, _, _ => Except.error (p_error none)
  | fuel + 1, minLev, left, toks =>
      match toks with
      | t :: rest =>
          if isBinopToken t.ttype then
            match precLevel t.ttype with
            | some lev =>
                if minLev ≤ lev then
                  match parseExpr fuel (if assocOf t.ttype = some "left" then lev + 1 else lev) rest with
                  | Except.error e => Except.error e
                  | Except.ok (right, toks1) =>
                      match p_jsonpath_binop t.svalue left right with
                      | some node => parseBinopLoop fuel minLev node toks1
                      | none => Except.error (p_error (some t))
                else Except.ok (left, toks)
            | none => Except.error (p_error (some t))
          else Except.ok (left, toks)
      | [] => Except.ok (left, toks)

end

/-- `parse_token_stream`: run the `jsonpath` start symbol over the whole
token list; a leftover token is a parse error at that token.  The fuel is a
bound on recursion depth, ample for any input (every recursive call follows
the consumption of at least one token). -/
def parse_token_stream (toks : List LexToken) : Except JsonPathParserError JsonPath :=
  match parseExpr (4 * toks.length + 8) 0 toks with
  | Except.error e => Except.error e
  | Except.ok (r, rest) =>
      match rest with
      | [] => Except.ok r
      | t :: _ => Except.error (p_error (some t))

/-- Identifier start characters. -/
def isIdStart (c : Char) : Bool := c.isAlpha || c = '_'

/-- Identifier continuation characters. -/
def isIdChar (c : Char) : Bool := c.isAlphanum || c = '_'

/-- Decimal value of a digit list. -/
def digitsToNat (ds : List Char) : Nat :=
  ds.foldl (fun a c => a * 10 + (c.toNat - 48)) 0

/-- Modelled from the spec: the token source (`jsonpath_ng/lexer.py`) is an
external collaborator whose source is not under `src/`.  Per §1/§6 it turns
raw text into typed tokens — identifiers, numbers, the literal punctuation
characters used as terminals, the two-character descendants operator
`DOUBLEDOT`, and the keyword-like `WHERE` operator — each carrying position
metadata, skipping blanks.  This suffices for every textual input the
claims mention; named-operator tokens (whose surface syntax the spec does
not give) are exercised at token level instead. -/
def lexAux : Nat → List Char → Nat → Option (List LexToken)
  | 0, _, _ => none
  | _ + 1, [], _ => some []
  | fuel + 1, c :: cs, pos =>
      if c = ' ' || c = '\t' then lexAux fuel cs (pos + 1)
      else if isIdStart c then
        match cs.takeWhile isIdChar with
        | tail =>
            match String.mk (c :: tail) with
            | name =>
                match (if name = "where" then mkTok "WHERE" (TokVal.s name) pos
                       else mkTok "ID" (TokVal.s name) pos) with
                | tok =>
                    (lexAux fuel (cs.drop tail.length) (pos + 1 + tail.length)).map
                      (fun ts => tok :: ts)
      else if c.isDigit then
        match cs.takeWhile Char.isDigit with
        | tail =>
            (lexAux fuel (cs.drop tail.length) (pos + 1 + tail.length)).map
              (fun ts => mkTok "NUMBER" (TokVal.n (Int.ofNat (digitsToNat (c :: tail)))) pos :: ts)
      else if c = '.' then
        match cs with
        | '.' :: cs2 =>
            (lexAux fuel cs2 (pos + 2)).map
              (fun ts => mkTok "DOUBLEDOT" (TokVal.s "..") pos :: ts)
        | _ =>
            (lexAux fuel cs (pos + 1)).map
              (fun ts => mkTok "." (TokVal.s ".") pos :: ts)
      else if c ∈ ['$', '|', '&', ',', '[', ']', '(', ')', '*', ':'] then
        (lexAux fuel cs (pos + 1)).map
          (fun ts => mkTok (String.mk [c]) (TokVal.s (String.mk [c])) pos :: ts)
      else none

/-- Tokenize a whole input string (spec-modelled token source, see
`lexAux`). -/
def tokenize (s : String) : Option (List LexToken) :=
  lexAux (s.length + 1) s.toList 0

/-- The convenience entry point `parse(string)`: tokenize, then run the
parser over the token stream.  `none` only when the (spec-modelled) token
source rejects the text. -/
def parse (s : String) : Option (Except JsonPathParserError JsonPath) :=
  (tokenize s).map parse_token_stream

/-- `IteratorToTokenStream`: adapts an iterator (here: the list of its
remaining elements) to PLY's pull interface. -/
structure IteratorToTokenStream where
  iterator : List LexToken
deriving DecidableEq, Repr

/-- The adapter's `token()` method: `next(self.iterator)`, with
`StopIteration` caught and turned into the end-of-input signal `None` —
the `Option` result type records that exhaustion is returned as a value,
never propagated as an exception. -/
def IteratorToTokenStream.token :
    IteratorToTokenStream → Option LexToken × IteratorToTokenStream
  | { iterator := [] } => (none, { iterator := [] })
  | { iterator := t :: ts } => (some t, { iterator := ts })

/-- The results of `n` successive `token()` calls on a stream. -/
def tokenCalls : IteratorToTokenStream → Nat → List (Option LexToken)
  | _, 0 => []
  | s, n + 1 =>
      match s.token with
      | (t, s2) => t :: tokenCalls s2 n

/-- C1: the claim asserts that `"a.b where c.d"` compiles to
`Where(Child(Fields a, Fields b), Child(Fields c, Fields d))` and that
`"a|b.c"` compiles to `Union(Fields a, Child(Fields b, Fields c))`, `.`
binding tighter than the surrounding operator.  Both parts are false on the
code: the `precedence` table places `.` BELOW `|` and `WHERE` (PLY orders
the table from lowest to highest binding strength), so in both inputs the
surrounding operator binds tighter than `.`, yielding different trees, as
this theorem computes. -/
theorem binop_precedence_counterexample :
    parse "a|b.c" = some (Except.ok (JsonPath.Child
        (JsonPath.Union (JsonPath.Fields ["a"]) (JsonPath.Fields ["b"]))
        (JsonPath.Fields ["c"])))
    ∧ JsonPath.Child (JsonPath.Union (JsonPath.Fields ["a"]) (JsonPath.Fields ["b"]))
          (JsonPath.Fields ["c"])
        ≠ JsonPath.Union (JsonPath.Fields ["a"])
            (JsonPath.Child (JsonPath.Fields ["b"]) (JsonPath.Fields ["c"]))
    ∧ parse "a.b where c.d" = some (Except.ok (JsonPath.Child
        (JsonPath.Child (JsonPath.Fields ["a"])
          (JsonPath.Where (JsonPath.Fields ["b"]) (JsonPath.Fields ["c"])))
        (JsonPath.Fields ["d"])))
    ∧ JsonPath.Child
          (JsonPath.Child (JsonPath.Fields ["a"])
            (JsonPath.Where (JsonPath.Fields ["b"]) (JsonPath.Fields ["c"])))
          (JsonPath.Fields ["d"])
        ≠ JsonPath.Where
            (JsonPath.Child (JsonPath.Fields ["a"]) (JsonPath.Fields ["b"]))
            (JsonPath.Child (JsonPath.Fields ["c"]) (JsonPath.Fields ["d"])) :=
  ⟨rfl, by decide, rfl, by decide⟩

/-- C1 (amended): compiling `"a.b where c.d"` yields
`Child(Child(Fields a, Where(Fields b, Fields c)), Fields d)`, and
compiling `"a|b.c"` yields `Child(Union(Fields a, Fields b), Fields c)`:
in both inputs `.` binds LESS tightly than the surrounding operator,
because the precedence table places `.` below `|`, `&` and `where`. -/
theorem binop_precedence_examples :
    parse "a.b where c.d" = some (Except.ok (JsonPath.Child
        (JsonPath.Child (JsonPath.Fields ["a"])
          (JsonPath.Where (JsonPath.Fields ["b"]) (JsonPath.Fields ["c"])))
        (JsonPath.Fields ["d"])))
    ∧ parse "a|b.c" = some (Except.ok (JsonPath.Child
        (JsonPath.Union (JsonPath.Fields ["a"]) (JsonPath.Fields ["b"]))
        (JsonPath.Fields ["c"]))) :=
  ⟨rfl, rfl⟩

/-- C2: the binary path operators are resolved by the exact precedence
ordering, from lowest to highest binding strength,
`,` < `..` < `.` < `|` < `&` < `where` (the table's 1-based positions are
1..6 in that order), every entry is declared `left`-associative, each of
the five binary operators parses left-nested when chained, and in
particular `"a.b.c"` compiles to `Child(Child(Fields a, Fields b),
Fields c)`, not a right-nested tree. -/
theorem precedence_table_left_assoc :
    precLevel "," = some 1
    ∧ precLevel "DOUBLEDOT" = some 2
    ∧ precLevel "." = some 3
    ∧ precLevel "|" = some 4
    ∧ precLevel "&" = some 5
    ∧ precLevel "WHERE" = some 6
    ∧ assocOf "," = some "left"
    ∧ assocOf "DOUBLEDOT" = some "left"
    ∧ assocOf "." = some "left"
    ∧ assocOf "|" = some "left"
    ∧ assocOf "&" = some "left"
    ∧ assocOf "WHERE" = some "left"
    ∧ parse "a.b.c" = some (Except.ok (JsonPath.Child
        (JsonPath.Child (JsonPath.Fields ["a"]) (JsonPath.Fields ["b"]))
        (JsonPath.Fields ["c"])))
    ∧ parse "a..b..c" = some (Except.ok (JsonPath.Descendants
        (JsonPath.Descendants (JsonPath.Fields ["a"]) (JsonPath.Fields ["b"]))
        (JsonPath.Fields ["c"])))
    ∧ parse "a|b|c" = some (Except.ok (JsonPath.Union
        (JsonPath.Union (JsonPath.Fields ["a"]) (JsonPath.Fields ["b"]))
        (JsonPath.Fields ["c"])))
    ∧ parse "a&b&c" = some (Except.ok (JsonPath.Intersect
        (JsonPath.Intersect (JsonPath.Fields ["a"]) (JsonPath.Fields ["b"]))
        (JsonPath.Fields ["c"])))
    ∧ parse "a where b where c" = some (Except.ok (JsonPath.Where
        (JsonPath.Where (JsonPath.Fields ["a"]) (JsonPath.Fields ["b"]))
        (JsonPath.Fields ["c"]))) :=
  ⟨rfl, rfl, rfl, rfl, rfl, rfl, rfl, rfl, rfl, rfl, rfl, rfl, rfl, rfl, rfl, rfl, rfl⟩

/-- C3: each of the up-to-three slice components is, independently, its
literal integer when a `NUMBER` is written in that position and absent
(distinct from zero) when the position is empty: `"[1:]"` gives
`Slice(1, absent, absent)`, `"[:]"` gives `Slice(absent, absent, absent)`,
`"[::2]"` gives `Slice(absent, absent, 2)`; the two further conjuncts show
the remaining present/absent combinations of the grammar's two slice
forms. -/
theorem slice_components :
    parse "[1:]" = some (Except.ok (JsonPath.Slice (some 1) none none))
    ∧ parse "[:]" = some (Except.ok (JsonPath.Slice none none none))
    ∧ parse "[::2]" = some (Except.ok (JsonPath.Slice none none (some 2)))
    ∧ parse "[1:2]" = some (Except.ok (JsonPath.Slice (some 1) (some 2) none))
    ∧ parse "[1:2:3]" = some (Except.ok (JsonPath.Slice (some 1) (some 2) (some 3))) :=
  ⟨rfl, rfl, rfl, rfl, rfl⟩

/-- C4: the literal `*` is context-sensitive: the bare text `"*"` compiles
to the wildcard field selector `Fields('*')`, while the bracketed text
`"[*]"` compiles to the full-range slice `Slice()` with all three
components absent — never a `Fields` node (the two results are distinct
constructors). -/
theorem star_context :
    parse "*" = some (Except.ok (JsonPath.Fields ["*"]))
    ∧ parse "[*]" = some (Except.ok (JsonPath.Slice none none none))
    ∧ JsonPath.Slice none none none ≠ JsonPath.Fields ["*"] :=
  ⟨rfl, rfl, by decide⟩

/-- C5: postfix bracket access is child access without a `.` token:
`"a[0]"` compiles to `Child(Fields a, Index 0)`, and the tree for
`"a.[0]"` (which the grammar also accepts, via the binop production with a
bracketed right operand) is structurally equal to it. -/
theorem bracket_child_access :
    parse "a[0]" = some (Except.ok (JsonPath.Child (JsonPath.Fields ["a"]) (JsonPath.Index 0)))
    ∧ parse "a.[0]" = parse "a[0]" :=
  ⟨rfl, rfl⟩

/-- C6: compiling the named-operator token `this` yields `This()`,
compiling `parent` yields `Parent()`, and a named-operator token with any
other name fails with the unknown-named-operator error carrying the name
and the token's position, producing no AST. -/
theorem named_operator_semantics :
    parse_token_stream [mkTok "NAMED_OPERATOR" (TokVal.s "this") 0] = Except.ok JsonPath.This
    ∧ parse_token_stream [mkTok "NAMED_OPERATOR" (TokVal.s "parent") 0] = Except.ok JsonPath.Parent
    ∧ ∀ (name : String) (pos : Nat), name ≠ "this" → name ≠ "parent" →
        parse_token_stream [mkTok "NAMED_OPERATOR" (TokVal.s name) pos] =
          Except.error (unknownNamedOperatorError name 1 pos) := by
  refine ⟨rfl, rfl, ?_⟩
  intro name pos h1 h2
  have hatom : parseAtom (10 + 1) [mkTok "NAMED_OPERATOR" (TokVal.s name) pos] =
      Except.error (unknownNamedOperatorError name 1 pos) := by
    simp [parseAtom, mkTok, LexToken.svalue, h1, h2]
  have hexpr : parseExpr (11 + 1) 0 [mkTok "NAMED_OPERATOR" (TokVal.s name) pos] =
      Except.error (unknownNamedOperatorError name 1 pos) := by
    simp [parseExpr, hatom]
  simp [parse_token_stream, hexpr]

/-- C6 witness: the unknown-name branch of `named_operator_semantics`
instantiated at the concrete name `grandparent` at position 5. -/
theorem named_operator_semantics_witness :
    "grandparent" ≠ "this" ∧ "grandparent" ≠ "parent"
    ∧ parse_token_stream [mkTok "NAMED_OPERATOR" (TokVal.s "grandparent") 5] =
        Except.error (unknownNamedOperatorError "grandparent" 1 5) :=
  ⟨by decide, by decide, named_operator_semantics.2.2 "grandparent" 5 (by decide) (by decide)⟩

/-- C7: when the token stream is exhausted while a production is still
incomplete — in particular for the input `"$."` with a trailing `.` and no
right operand — compilation fails with the end-of-input error (the
`t is None` branch of `p_error`) rather than returning any AST; two more
mid-production exhaustion points behave the same. -/
theorem end_of_input_error :
    parse "$." = some (Except.error (p_error none))
    ∧ p_error none = { msg := "Parse error near the end of string!" }
    ∧ parse "a." = some (Except.error (p_error none))
    ∧ parse "[1:" = some (Except.error (p_error none)) :=
  ⟨rfl, rfl, rfl, rfl⟩

/-- C8: the claim asserts the three failure conditions are surfaced as
three distinct structured error values, each preserving the offending
token's kind/value/name and position as inspectable fields rather than
only as formatted message text.  The code refutes this: every raise site
constructs the single type `JsonPathParserError` from one formatted
message string, so all three conditions below produce values of that one
type whose entire content is the message — and the end-of-input error is a
fixed string carrying no position or token information at all. -/
theorem error_single_type_counterexample :
    parse "$." = some (Except.error { msg := "Parse error near the end of string!" })
    ∧ parse_token_stream [mkTok "NAMED_OPERATOR" (TokVal.s "foo") 0] =
        Except.error { msg := "Unknown named operator `foo` at 1:0" }
    ∧ parse_token_stream [mkTok "&" (TokVal.s "&") 0] =
        Except.error { msg := "Parse error at 1:0 near token & (&)" } :=
  ⟨rfl, rfl, rfl⟩

/-- C8 (amended): the three failure conditions are all surfaced as the
single error type `JsonPathParserError`, whose only content is a formatted
message string (first conjunct: every error value is exactly the `mk` of
its message).  The unexpected-token and unknown-named-operator messages
embed the position and the token's value/name in the text; the
end-of-input message is a fixed string with no position. -/
theorem error_values_shape :
    (∀ e : JsonPathParserError, e = { msg := e.msg })
    ∧ parse "$." = some (Except.error (p_error none))
    ∧ parse_token_stream [mkTok "NAMED_OPERATOR" (TokVal.s "foo") 0] =
        Except.error (unknownNamedOperatorError "foo" 1 0)
    ∧ parse_token_stream [mkTok "&" (TokVal.s "&") 0] =
        Except.error (p_error (some (mkTok "&" (TokVal.s "&") 0))) :=
  ⟨fun e => by cases e; rfl, rfl, rfl, rfl⟩

/-- C9: compiling the bare bracket form `"[0]"` with no left-hand
expression succeeds and yields the bare node `Index(0)` — not wrapped in
`Child` and not attached to `Root`. -/
theorem bare_index_accepted :
    parse "[0]" = some (Except.ok (JsonPath.Index 0)) :=
  rfl

/-- Helper for the token-stream adapter: an exhausted stream answers
`none` to every call. -/
theorem tokenCalls_nil (k : Nat) :
    tokenCalls { iterator := [] } k = List.replicate k none := by
  induction k with
  | zero => rfl
  | succ n ih => simp [tokenCalls, IteratorToTokenStream.token, ih, List.replicate]

/-- C10: for every token iterator (its list of elements) the adapter's
`token()` method returns the elements one by one in order, and returns the
end-of-input signal `none` exactly from the point the iterator is
exhausted on; exhaustion is a returned value (`Option`), never a
propagated exception. -/
theorem token_stream_adapter :
    ∀ (l : List LexToken) (k : Nat),
      tokenCalls { iterator := l } (l.length + k) = l.map some ++ List.replicate k none := by
  intro l
  induction l with
  | nil => intro k; simpa using tokenCalls_nil k
  | cons t ts ih =>
      intro k
      have hlen : (t :: ts).length + k = (ts.length + k) + 1 := by
        simp [List.length]
        omega
      rw [hlen]
      simp [tokenCalls, IteratorToTokenStream.token, ih k]
